import Mathlib

/-!
Verification of the mlir-rs safe-wrapper layer: a shallow embedding of the
wrapper code (ownership transfer, bounds checks, parsing, the string bridge,
`LogicalResult`, `StringRef`) together with proofs of the specified
properties.  A Rust panic is modelled as `Except.error` carrying the panic
message; a value returned normally is `Except.ok`.  Foreign (MLIR C API)
primitives that the wrapper merely forwards to are taken as parameters, or,
where a claim is about the foreign behaviour itself, modelled from the spec
in a definition whose doc comment says so.
-/

namespace MlirRs

/-- Whether a modelled computation panicked. -/
def isPanic {α : Type} : Except String α → Bool
  | Except.error _ => true
  | Except.ok _ => false

/-! ## LogicalResult (src/mlir/logical_result.rs)

`MlirLogicalResult` is a C struct holding a single `i8` field `value`; the
wrapper stores it in `raw`.  We model the `i8` as an `Int`. -/

/-- The raw C struct `MlirLogicalResult { value: i8 }`. -/
structure MlirLogicalResult where
  value : Int
deriving DecidableEq, Repr

/-- `LogicalResult` wraps an `MlirLogicalResult` (logical_result.rs, line 6). -/
structure LogicalResult where
  raw : MlirLogicalResult
deriving DecidableEq, Repr

/-- `LogicalResult::from_raw` (logical_result.rs, line 18). -/
def LogicalResult.from_raw (raw : MlirLogicalResult) : LogicalResult := ⟨raw⟩

/-- Rust `i8::from(b)`: 1 for `true`, 0 for `false`. -/
def i8_from_bool (b : Bool) : Int := if b then 1 else 0

/-- `LogicalResult::success(is_success)` (logical_result.rs, line 29):
`from_raw(MlirLogicalResult { value: i8::from(is_success) })`. -/
def LogicalResult.success (is_success : Bool) : LogicalResult :=
  LogicalResult.from_raw ⟨i8_from_bool is_success⟩

/-- `LogicalResult::failure(is_failure)` (logical_result.rs, line 42):
`LogicalResult::success(!is_failure)`. -/
def LogicalResult.failure (is_failure : Bool) : LogicalResult :=
  LogicalResult.success (!is_failure)

/-- `LogicalResult::to_raw` (logical_result.rs, line 48). -/
def LogicalResult.to_raw (r : LogicalResult) : MlirLogicalResult := r.raw

/-- `LogicalResult::succeeded` (logical_result.rs, line 54):
`self.to_raw().value != 0`. -/
def LogicalResult.succeeded (r : LogicalResult) : Bool := r.to_raw.value != 0

/-- `LogicalResult::failed` (logical_result.rs, line 60): `!self.succeeded()`. -/
def LogicalResult.failed (r : LogicalResult) : Bool := !r.succeeded

/-! ## PassManager::run (src/mlir/pass/pass_manager.rs, lines 38-48)

The body converts the raw result of the foreign `mlirPassManagerRunOnOp`
call with `LogicalResult::from_raw` and then asserts on it: the success case
yields `true`, the failure case executes
`panic!("Failed to run pass manager on operation")`.  The function returns
`()`; no `LogicalResult` reaches the caller.  We take the raw foreign result
as the parameter. -/

/-- `PassManager::run` given the raw result of `mlirPassManagerRunOnOp`. -/
def PassManager.run (foreign_run_result : MlirLogicalResult) : Except String Unit :=
  let result := LogicalResult.from_raw foreign_run_result
  if result.succeeded then Except.ok ()
  else Except.error "Failed to run pass manager on operation"

/-! ## Ownership transfer into containers (block.rs, region.rs)

Each transfer method consumes an owned wrapper by value.  Rust runs the
`Drop` impl of that owned parameter when the method body ends, unless the
body passed it to `mem::forget`.  We record a method body as its explicit
foreign calls, the foreign destroy routine that the consumed parameter's
`Drop` impl would invoke, and whether the body calls `forget` on it; the
emitted foreign-call trace then follows from Rust drop rules. -/

/-- The foreign calls relevant to ownership transfer. -/
inductive FfiCall
  | mlirBlockAppendOwnedOperation
  | mlirBlockInsertOwnedOperationAfter
  | mlirOperationDestroy
  | mlirRegionAppendOwnedBlock
  | mlirBlockDestroy
deriving DecidableEq, Repr

/-- A transfer-method body: its explicit foreign calls, the destroy routine
of the consumed owned parameter, and whether the body forgets it. -/
structure MethodBody where
  explicit_calls : List FfiCall
  owned_arg_drop : FfiCall
  owned_arg_forgotten : Bool
deriving DecidableEq, Repr

/-- The foreign calls a method body makes over its whole extent: its explicit
calls, then the Drop of the consumed owned parameter at scope end unless the
body called `mem::forget` on it. -/
def MethodBody.trace (b : MethodBody) : List FfiCall :=
  b.explicit_calls ++ (if b.owned_arg_forgotten then [] else [b.owned_arg_drop])

/-- How many times a body's trace invokes the destroy routine of the
transferred (consumed) handle. -/
def MethodBody.destroyCount (b : MethodBody) : Nat :=
  (b.trace.filter (fun c => c == b.owned_arg_drop)).length

/-- `BlockRef::append_operation` (block.rs, lines 117-122): makes the
borrowed `OperationRef`, calls `mlirBlockAppendOwnedOperation`, then
`forget(operation)`, so `Operation`'s `Drop` (operation.rs, lines 135-139,
`mlirOperationDestroy`) does not run. -/
def append_operation_body : MethodBody :=
  { explicit_calls := [FfiCall.mlirBlockAppendOwnedOperation]
    owned_arg_drop := FfiCall.mlirOperationDestroy
    owned_arg_forgotten := true }

/-- `BlockRef::insert_operation_after` (block.rs, lines 175-185): calls
`mlirBlockInsertOwnedOperationAfter` then `forget(operation)`. -/
def insert_operation_after_body : MethodBody :=
  { explicit_calls := [FfiCall.mlirBlockInsertOwnedOperationAfter]
    owned_arg_drop := FfiCall.mlirOperationDestroy
    owned_arg_forgotten := true }

/-- `RegionRef::append_block` (region.rs, lines 95-99): makes the borrowed
`BlockRef`, calls `mlirRegionAppendOwnedBlock`, and returns.  The body never
calls `forget(block)`, so the consumed `Block`'s `Drop` impl (block.rs,
lines 81-85, `mlirBlockDestroy`) runs at scope end. -/
def append_block_body : MethodBody :=
  { explicit_calls := [FfiCall.mlirRegionAppendOwnedBlock]
    owned_arg_drop := FfiCall.mlirBlockDestroy
    owned_arg_forgotten := false }

/-! ## Bounds-checked indexed accessors (operation.rs, block.rs)

Each accessor first queries the foreign count (`mlirOperationGetNum...`),
then either panics or performs the unchecked foreign indexed access.  We
model an operation by its counts (the results of the count queries, Rust
`isize`, modelled as `Int`); on the non-panicking path the accessor is the
foreign call at index `idx`, which we record as `Except.ok idx`. -/

/-- The count queries of an operation: `num_operands`, `num_regions`,
`num_results`, `num_attributes`, `num_discardable_attributes`
(operation.rs, lines 260, 293, 319, 453, 383). -/
structure OpCounts where
  num_operands : Int
  num_regions : Int
  num_results : Int
  num_attributes : Int
  num_discardable_attributes : Int
deriving DecidableEq, Repr

/-- `OperationRef::operand` (operation.rs, lines 271-276): panics when
`idx >= self.num_operands()`, otherwise calls
`mlirOperationGetOperand(self, idx)`.  There is no check for negative
`idx`. -/
def OperationRef.operand (op : OpCounts) (idx : Int) : Except String Int :=
  if idx ≥ op.num_operands then
    Except.error ("Operand index " ++ toString idx ++ " out of bounds.")
  else Except.ok idx

/-- `OperationRef::region` (operation.rs, lines 304-309). -/
def OperationRef.region (op : OpCounts) (idx : Int) : Except String Int :=
  if idx ≥ op.num_regions then
    Except.error ("Region index " ++ toString idx ++ " out of bounds.")
  else Except.ok idx

/-- `OperationRef::result` (operation.rs, lines 330-335). -/
def OperationRef.result (op : OpCounts) (idx : Int) : Except String Int :=
  if idx ≥ op.num_results then
    Except.error ("Result index " ++ toString idx ++ " out of bounds.")
  else Except.ok idx

/-- `OperationRef::attribute_at` (operation.rs, lines 464-472). -/
def OperationRef.attribute_at (op : OpCounts) (idx : Int) : Except String Int :=
  if idx ≥ op.num_attributes then
    Except.error ("Attribute index " ++ toString idx ++ " out of bounds.")
  else Except.ok idx

/-- `OperationRef::discardable_attribute_at` (operation.rs, lines 395-403). -/
def OperationRef.discardable_attribute_at (op : OpCounts) (idx : Int) : Except String Int :=
  if idx ≥ op.num_discardable_attributes then
    Except.error ("Discardable attribute index " ++ toString idx ++ " out of bounds.")
  else Except.ok idx

/-- `BlockRef::argument` (block.rs, lines 137-142): panics when `idx < 0`
or `idx >= self.num_arguments()`, otherwise calls
`mlirBlockGetArgument(self, idx)`. -/
def BlockRef.argument (num_arguments idx : Int) : Except String Int :=
  if idx < 0 || idx ≥ num_arguments then
    Except.error ("Argument index " ++ toString idx ++ " out of bounds")
  else Except.ok idx

/-! ## StringRef (src/string_ref.rs)

`MlirStringRef` is a borrowed pointer-plus-length view of bytes; we model it
as the byte sequence it references (`slice::from_raw_parts(data, length)`),
each byte a `Nat` below 256.  Rust `&str` values are modelled by their UTF-8
byte sequences, so `str::from_utf8` succeeds exactly on valid UTF-8 byte
sequences and is the identity on the bytes. -/

/-- A UTF-8 continuation byte, `0x80..=0xBF`. -/
def utf8_cont (b : Nat) : Bool := 0x80 ≤ b && b ≤ 0xBF

/-- Validity of a byte sequence as UTF-8 (RFC 3629 table, the check
performed by Rust `str::from_utf8`). -/
def utf8Valid : List Nat → Bool
  | [] => true
  | b1 :: t =>
    if b1 < 0x80 then utf8Valid t
    else if 0xC2 ≤ b1 && b1 ≤ 0xDF then
      match t with
      | b2 :: t2 => utf8_cont b2 && utf8Valid t2
      | [] => false
    else if b1 == 0xE0 then
      match t with
      | b2 :: b3 :: t3 => (0xA0 ≤ b2 && b2 ≤ 0xBF) && utf8_cont b3 && utf8Valid t3
      | _ => false
    else if (0xE1 ≤ b1 && b1 ≤ 0xEC) || b1 == 0xEE || b1 == 0xEF then
      match t with
      | b2 :: b3 :: t3 => utf8_cont b2 && utf8_cont b3 && utf8Valid t3
      | _ => false
    else if b1 == 0xED then
      match t with
      | b2 :: b3 :: t3 => (0x80 ≤ b2 && b2 ≤ 0x9F) && utf8_cont b3 && utf8Valid t3
      | _ => false
    else if b1 == 0xF0 then
      match t with
      | b2 :: b3 :: b4 :: t4 =>
        (0x90 ≤ b2 && b2 ≤ 0xBF) && utf8_cont b3 && utf8_cont b4 && utf8Valid t4
      | _ => false
    else if 0xF1 ≤ b1 && b1 ≤ 0xF3 then
      match t with
      | b2 :: b3 :: b4 :: t4 => utf8_cont b2 && utf8_cont b3 && utf8_cont b4 && utf8Valid t4
      | _ => false
    else if b1 == 0xF4 then
      match t with
      | b2 :: b3 :: b4 :: t4 =>
        (0x80 ≤ b2 && b2 ≤ 0x8F) && utf8_cont b3 && utf8_cont b4 && utf8Valid t4
      | _ => false
    else false

/-- The raw `MlirStringRef`: the `length` bytes starting at `data`. -/
structure MlirStringRef where
  data : List Nat
deriving DecidableEq, Repr

/-- `StringRef::as_str` (string_ref.rs, lines 41-54): empty view gives the
empty string; otherwise one trailing NUL byte (if present) is stripped, and
the remaining bytes go through `str::from_utf8(...).expect("MLIR StringRef
was not valid UTF-8")`. -/
def StringRef.as_str (r : MlirStringRef) : Except String (List Nat) :=
  if r.data.length == 0 then Except.ok []
  else
    let bytes := r.data
    let string_bytes := if bytes.getLast? == some 0 then bytes.dropLast else bytes
    if utf8Valid string_bytes then Except.ok string_bytes
    else Except.error "MLIR StringRef was not valid UTF-8"

/-- `impl From<&T> for StringRef` (string_ref.rs, lines 57-73): the raw view
is `data = value.as_ptr(), length = value.len()` - exactly the string's
bytes, with no NUL terminator appended. -/
def StringRef.from_string (value : List Nat) : MlirStringRef := ⟨value⟩

/-! ## Parsing (type.rs, attribute.rs, operation.rs)

The foreign parse primitives are taken as parameters returning a raw handle
(`Nat`, with 0 the null handle); `try_from_raw` maps the null handle to
absence (binding.rs, lines 150-156).  Context handles are `Nat`. -/

/-- `try_from_raw`: null raw handle means absence (binding.rs, lines
150-156). -/
def try_from_raw (raw : Nat) : Option Nat := if raw == 0 then none else some raw

/-- `TypeRef::parse` (type.rs, lines 54-61):
`try_from_raw(mlirTypeParseGet(context, ty))` - no panicking operation in
the body. -/
def TypeRef.parse (mlirTypeParseGet : Nat → List Nat → Nat) (context : Nat)
    (ty : List Nat) : Except String (Option Nat) :=
  Except.ok (try_from_raw (mlirTypeParseGet context ty))

/-- `AttributeRef::parse` (attribute.rs, lines 63-70):
`try_from_raw(mlirAttributeParseGet(context, attribute))`. -/
def AttributeRef.parse (mlirAttributeParseGet : Nat → List Nat → Nat) (context : Nat)
    (attribute_text : List Nat) : Except String (Option Nat) :=
  Except.ok (try_from_raw (mlirAttributeParseGet context attribute_text))

/-- Rust `CString::new(bytes)`: errors on an interior NUL byte, otherwise
appends the terminating NUL. -/
def CString.new (bytes : List Nat) : Except String (List Nat) :=
  if bytes.contains 0 then Except.error "NulError" else Except.ok (bytes ++ [0])

/-- `Operation::parse` (operation.rs, lines 114-132):
`CString::new(source).expect("Failed to convert source string to CString")`
panics on an interior NUL; otherwise the NUL-terminated buffer is handed to
the foreign `mlirOperationCreateParse` and the result goes through
`try_from_raw`. -/
def Operation.parse (mlirOperationCreateParse : Nat → List Nat → List Nat → Nat)
    (context : Nat) (source source_filename : List Nat) : Except String (Option Nat) :=
  match CString.new source with
  | Except.error _ => Except.error "Failed to convert source string to CString"
  | Except.ok source_c =>
    Except.ok (try_from_raw (mlirOperationCreateParse context source_c source_filename))

/-! ## The string-print bridge (src/string_reader.rs)

`StringReader` holds a mutable reference to a text sink (`fmt::Write`); we
model the sink by its write function, `true` meaning the write succeeded.
`raw_callback` is the `extern "C"` function handed to the foreign printer:
it reinterprets the opaque pointer back to the reader (the identity at this
level) and forwards the chunk to `push`.  Neither function contains any
panic-catching construct; panics raised inside propagate out unchanged. -/

/-- `StringReader::push` (string_reader.rs, lines 27-30):
`write!(destination, ..., string.as_str()).expect("Could not write MLIR
string to destination")` - `as_str` may panic on invalid UTF-8, and a failed
sink write panics via `expect`. -/
def StringReader.push (sink_write : List Nat → Bool) (string : MlirStringRef) :
    Except String Unit :=
  match StringRef.as_str string with
  | Except.error e => Except.error e
  | Except.ok s =>
    if sink_write s then Except.ok ()
    else Except.error "Could not write MLIR string to destination"

/-- `StringReader::raw_callback` (string_reader.rs, lines 38-43): recovers
the reader from the opaque pointer, wraps the raw chunk, and calls `push`.
No `catch_unwind` appears in the body. -/
def StringReader.raw_callback (sink_write : List Nat → Bool)
    (raw_string : MlirStringRef) : Except String Unit :=
  StringReader.push sink_write raw_string

/-! ## The borrowed-only Drop prohibition (support/binding.rs, dialect.rs)

`impl_unowned_mlir_value!` is a `macro_rules!` macro (binding.rs, lines
142-210).  Rust tries its arms in order; each arm requires a literal
selector token (`_value_impl`, `_drop_impl`, `no_refs`, `context_ref`)
followed by two or three further token trees.  An invocation matching no arm
is a compile error and expands to nothing.  We model an invocation as its
list of top-level token trees (idents rendered as strings) and the dispatch
as a function to the matched expansion.  The `no_refs`/`context_ref` arms
(both arities) are the only ones that produce the panicking `Drop` impl for
the reference type. -/

/-- What a matched arm of `impl_unowned_mlir_value!` expands to. -/
inductive UnownedExpansion
  /-- Arm `(_value_impl, ...)` (binding.rs, line 143): only the
  `from_raw`/`try_from_raw`/`to_raw` bodies. -/
  | valueImplFragment
  /-- Arm `(_drop_impl, ...)` (binding.rs, line 162): only the panicking
  `drop` body. -/
  | dropImplFragment
  /-- Arms `(no_refs, Ref, Binding)` and `(context_ref, Ref, Binding)`
  (binding.rs, lines 170-187): the `UnownedMlirValue` impl plus the
  panicking `Drop` impl for the reference type. -/
  | refImpls
  /-- Arms `(no_refs, Owning, Ref, Binding)` and
  `(context_ref, Owning, Ref, Binding)` (binding.rs, lines 188-209): a
  `Deref` impl for the owning type, then recursively `refImpls`. -/
  | derefAndRefImpls
deriving DecidableEq, Repr

/-- Arm dispatch of `impl_unowned_mlir_value!`, in source order of the arms
(binding.rs, lines 142-210); `none` is a compile error (no arm matched). -/
def impl_unowned_mlir_value_arm : List String → Option UnownedExpansion
  | ["_value_impl", _, _] => some UnownedExpansion.valueImplFragment
  | ["_drop_impl", _, _] => some UnownedExpansion.dropImplFragment
  | ["no_refs", _, _] => some UnownedExpansion.refImpls
  | ["context_ref", _, _] => some UnownedExpansion.refImpls
  | ["no_refs", _, _, _] => some UnownedExpansion.derefAndRefImpls
  | ["context_ref", _, _, _] => some UnownedExpansion.derefAndRefImpls
  | _ => none

/-- Whether an invocation of `impl_unowned_mlir_value!` generates the
panicking `Drop` impl for the reference type. -/
def generatesPanickingDrop (inv : List String) : Bool :=
  match impl_unowned_mlir_value_arm inv with
  | some UnownedExpansion.refImpls => true
  | some UnownedExpansion.derefAndRefImpls => true
  | _ => false

/-- The `drop` body the macro generates (binding.rs, lines 162-169):
`panic!("Owned instances of ... should never be created!")`,
unconditionally. -/
def macro_generated_drop (ref_type : String) : Except String Unit :=
  Except.error ("Owned instances of " ++ ref_type ++ " should never be created!")

/-- The handwritten `impl Drop for DialectRef` (dialect.rs, lines 60-64):
an unconditional panic. -/
def DialectRef.drop : Except String Unit :=
  Except.error "Owned instances of DialectRef should never be created!"

/-- `impl_unowned_mlir_value!(context_ref, Block, BlockRef, MlirBlock)`
(block.rs, line 107). -/
def blockRefInvocation : List String := ["context_ref", "Block", "BlockRef", "MlirBlock"]

/-- `impl_unowned_mlir_value!(context_ref, Region, RegionRef, MlirRegion)`
(region.rs, line 85). -/
def regionRefInvocation : List String := ["context_ref", "Region", "RegionRef", "MlirRegion"]

/-- `impl_unowned_mlir_value!(context_ref, Operation, OperationRef,
MlirOperation)` (operation.rs, line 167). -/
def operationRefInvocation : List String :=
  ["context_ref", "Operation", "OperationRef", "MlirOperation"]

/-- `impl_unowned_mlir_value!(context_ref, ValueRef, MlirValue)`
(value.rs, line 45). -/
def valueRefInvocation : List String := ["context_ref", "ValueRef", "MlirValue"]

/-- `impl_unowned_mlir_value!(no_refs, AttributeRef, MlirAttribute)`
(mlir/ir/attribute.rs, line 52). -/
def attributeRefInvocation : List String := ["no_refs", "AttributeRef", "MlirAttribute"]

/-- `impl_unowned_mlir_value!(TypeRef, MlirType)` (mlir/ir/type.rs,
line 43): two token trees, no selector. -/
def typeRefInvocation : List String := ["TypeRef", "MlirType"]

/-- `impl_unowned_mlir_value!(IdentifierRef, MlirIdentifier)`
(mlir/ir/identifier.rs, line 27). -/
def identifierRefInvocation : List String := ["IdentifierRef", "MlirIdentifier"]

/-- `impl_unowned_mlir_value!(LocationRef, MlirLocation)`
(mlir/ir/location.rs, line 44). -/
def locationRefInvocation : List String := ["LocationRef", "MlirLocation"]

/-- `impl_unowned_mlir_value!(Context, ContextRef, MlirContext)`
(context.rs, line 100): three token trees, the first of which is not a
selector. -/
def contextRefInvocation : List String := ["Context", "ContextRef", "MlirContext"]

/-! ## Interning equality (type.rs, attribute.rs; foreign interning)

Modelled from the spec: the interning performed by the foreign primitives
`mlirTypeParseGet` / `mlirAttributeParseGet` and the comparison performed by
`mlirTypeEqual` / `mlirAttributeEqual` live in the MLIR C library, not in
this repository.  Per the spec (sections 3 and 4.3): values are
uniqued/interned inside a context, so a successfully parsed text yields the
unique interned handle of the value it denotes (distinct values have
distinct handles), and the foreign equality on such handles is handle
identity.  `denote` is the foreign grammar (absence on malformed text);
`handleOf` assigns each denoted value its interned handle, injectively. -/
structure InternedContext where
  denote : List Nat → Option Nat
  handleOf : Nat → Nat
  handle_injective : ∀ v w, handleOf v = handleOf w → v = w

/-- `mlirTypeEqual` on interned handles: handle identity (modelled from the
spec; the wrapper `impl PartialEq for TypeRef` (type.rs, lines 76-82)
delegates to it). -/
def mlirTypeEqual (h1 h2 : Nat) : Bool := h1 == h2

/-- `TypeRef::parse` against an interning context: the interned handle of
the denoted value, absence on malformed text. -/
def InternedContext.typeParse (c : InternedContext) (s : List Nat) : Option Nat :=
  (c.denote s).map c.handleOf

/-- A concrete interning context recognising the texts "i32" and "f32"
(as UTF-8 bytes), denoting distinct values. -/
def sampleContext : InternedContext where
  denote := fun s =>
    if s == [105, 51, 50] then some 0
    else if s == [102, 51, 50] then some 1
    else none
  handleOf := fun v => v + 1
  handle_injective := by
    intro v w h
    simpa using h

/-! ## The per-value use list (value.rs, opoperand.rs; foreign use list)

Modelled from the spec: the use list maintained by `mlirValueGetFirstUse` /
`mlirOpOperandGetOwner` lives in the MLIR C library.  Per the spec (section
4.4): each value carries a singly linked list of `OpOperand` uses,
most-recently-added first (it behaves as a stack); constructing an operation
that uses the value pushes one use per operand position referencing it; the
first-use query returns the head, with the null sentinel when the list is
empty.  The wrapper `ValueRef::get_first_use` (value.rs, lines 84-91) lifts
the null sentinel into `Option` via `OpOperandRef::is_null`. -/

/-- One use edge: the owning operation and the operand position
(opoperand.rs). -/
structure OpOperandModel where
  owner : Nat
  operand_index : Nat
deriving DecidableEq, Repr

/-- A value's use list, head = most recently added use. -/
abbrev UseList := List OpOperandModel

/-- Foreign `mlirValueGetFirstUse`: the head of the use list, the null
sentinel (here `none`) when the value has no uses (modelled from the
spec). -/
def mlirValueGetFirstUse (uses : UseList) : Option OpOperandModel := uses.head?

/-- `ValueRef::get_first_use` (value.rs, lines 84-91): wraps the raw result
and maps the null sentinel (checked via `mlirOpOperandIsNull`) to `None`. -/
def ValueRef.get_first_use (uses : UseList) : Option OpOperandModel :=
  let raw := mlirValueGetFirstUse uses
  if raw.isNone then none else raw

/-- `OpOperandRef::get_owner` (opoperand.rs, lines 44-48): the operation
owning the operand. -/
def OpOperandRef.get_owner (o : OpOperandModel) : Nat := o.owner

/-- Adding a use of a value by operation `b` at operand position `idx`:
pushed onto the front of the use list (stack behaviour, modelled from the
spec). -/
def addUse (b idx : Nat) (uses : UseList) : UseList := ⟨b, idx⟩ :: uses

/-! ## Theorems -/

/-- C1: moving a standalone node into a container must suppress the
wrapper's automatic release action.  The code violates this for blocks:
the trace of `RegionRef::append_block` calls `mlirRegionAppendOwnedBlock`
and then, because the body never forgets the consumed `Block`, its `Drop`
invokes `mlirBlockDestroy` on the transferred handle (destroy count 1),
whereas `BlockRef::append_operation` and
`BlockRef::insert_operation_after` do forget the consumed `Operation`
(destroy count 0). -/
theorem c1_append_block_destroys_transferred_handle :
    MethodBody.trace append_block_body =
      [FfiCall.mlirRegionAppendOwnedBlock, FfiCall.mlirBlockDestroy] ∧
    MethodBody.destroyCount append_block_body = 1 ∧
    MethodBody.destroyCount append_operation_body = 0 ∧
    MethodBody.destroyCount insert_operation_after_body = 0 := by
  decide

/-- C2: a failing run was claimed to surface as a returned
LogicalResult Failure value; instead `PassManager::run` returns unit and
panics with the message below when the foreign run reports failure, and
returns unit (no LogicalResult) on success. -/
theorem c2_run_panics_on_failure :
    PassManager.run (LogicalResult.failure true).to_raw =
      Except.error "Failed to run pass manager on operation" ∧
    PassManager.run (LogicalResult.success true).to_raw = Except.ok () := by
  constructor
  · rfl
  · rfl

/-- C3 counterexample: `Operation::parse` on a source string containing an
interior NUL byte (the bytes of the text mod NUL ule) panics in
`CString::new(source).expect(...)` instead of returning absence, refuting
the claim that absence is the single failure mode for all input strings. -/
theorem c3_counterexample :
    Operation.parse (fun _ _ _ => 0) 0 [109, 111, 100, 0, 117, 108, 101] [] =
      Except.error "Failed to convert source string to CString" := by
  rfl

/-- C3 amended: `TypeRef::parse` and `AttributeRef::parse` never panic, for
every foreign parse primitive, context and input text; `Operation::parse`
never panics and forwards the NUL-terminated source to the foreign parser
provided the source contains no interior NUL byte; and a null raw result
maps to absence. -/
theorem c3_parse_absence_single_failure_mode
    (mlirTypeParseGet mlirAttributeParseGet : Nat → List Nat → Nat)
    (mlirOperationCreateParse : Nat → List Nat → List Nat → Nat)
    (context : Nat) (text source source_filename : List Nat)
    (h : source.contains 0 = false) :
    isPanic (TypeRef.parse mlirTypeParseGet context text) = false ∧
    isPanic (AttributeRef.parse mlirAttributeParseGet context text) = false ∧
    Operation.parse mlirOperationCreateParse context source source_filename =
      Except.ok (try_from_raw
        (mlirOperationCreateParse context (source ++ [0]) source_filename)) ∧
    try_from_raw 0 = none := by
  refine ⟨rfl, rfl, ?_, rfl⟩
  have h' : ¬ 0 ∈ source := by simpa using h
  simp [Operation.parse, CString.new, h']

/-- C3 witness: the amended statement at a concrete foreign parser that
always reports failure, with source the single byte 109. -/
theorem c3_parse_witness :
    isPanic (TypeRef.parse (fun _ _ => 0) 7 [122]) = false ∧
    Operation.parse (fun _ _ _ => 0) 7 [109] [] = Except.ok none :=
  have h := c3_parse_absence_single_failure_mode (fun _ _ => 0) (fun _ _ => 0)
    (fun _ _ _ => 0) 7 [122] [109] [] (by decide)
  ⟨h.1, by simpa using h.2.2.1⟩

/-- C4 counterexample: a negative index is not rejected by
`OperationRef::operand` - on an operation with zero operands, index -1
passes the `idx >= num_operands` guard and reaches the unchecked foreign
access instead of panicking, refuting the claim that every negative index
panics. -/
theorem c4_counterexample :
    OperationRef.operand ⟨0, 0, 0, 0, 0⟩ (-1) = Except.ok (-1) ∧
    isPanic (OperationRef.operand ⟨0, 0, 0, 0, 0⟩ (-1)) = false := by
  constructor
  · rfl
  · rfl

/-- C4 amended: each indexed accessor of `OperationRef` panics exactly when
the index is at least the corresponding count (in particular
`op.operand(op.num_operands())` panics for every `op`), `BlockRef::argument`
additionally panics on negative indices, and the `OperationRef` accessors
pass any index below the count - negative ones included - to the unchecked
foreign access. -/
theorem c4_bounds_checking (op : OpCounts) (num_arguments idx : Int) :
    (op.num_operands ≤ idx → isPanic (OperationRef.operand op idx) = true) ∧
    (op.num_regions ≤ idx → isPanic (OperationRef.region op idx) = true) ∧
    (op.num_results ≤ idx → isPanic (OperationRef.result op idx) = true) ∧
    (op.num_attributes ≤ idx → isPanic (OperationRef.attribute_at op idx) = true) ∧
    (op.num_discardable_attributes ≤ idx →
      isPanic (OperationRef.discardable_attribute_at op idx) = true) ∧
    ((idx < 0 ∨ num_arguments ≤ idx) →
      isPanic (BlockRef.argument num_arguments idx) = true) ∧
    isPanic (OperationRef.operand op op.num_operands) = true ∧
    (idx < op.num_operands → OperationRef.operand op idx = Except.ok idx) := by
  refine ⟨?_, ?_, ?_, ?_, ?_, ?_, ?_, ?_⟩
  · intro hge
    simp [OperationRef.operand, isPanic, hge]
  · intro hge
    simp [OperationRef.region, isPanic, hge]
  · intro hge
    simp [OperationRef.result, isPanic, hge]
  · intro hge
    simp [OperationRef.attribute_at, isPanic, hge]
  · intro hge
    simp [OperationRef.discardable_attribute_at, isPanic, hge]
  · intro hor
    rcases hor with hneg | hge
    · simp [BlockRef.argument, isPanic, hneg]
    · simp [BlockRef.argument, isPanic, hge]
  · simp [OperationRef.operand, isPanic]
  · intro hlt
    have hnot : ¬ op.num_operands ≤ idx := by omega
    simp [OperationRef.operand, hnot]

/-- C4 witness: the amended statement at an operation with two operands,
index 5 out of bounds, index 1 in bounds, and a block with three
arguments. -/
theorem c4_bounds_checking_witness :
    isPanic (OperationRef.operand ⟨2, 2, 2, 2, 2⟩ 5) = true ∧
    isPanic (OperationRef.attribute_at ⟨2, 2, 2, 2, 2⟩ 5) = true ∧
    isPanic (BlockRef.argument 3 5) = true ∧
    isPanic (OperationRef.operand ⟨2, 2, 2, 2, 2⟩ 2) = true ∧
    OperationRef.operand ⟨2, 2, 2, 2, 2⟩ 1 = Except.ok 1 :=
  have h5 := c4_bounds_checking ⟨2, 2, 2, 2, 2⟩ 3 5
  have h1 := c4_bounds_checking ⟨2, 2, 2, 2, 2⟩ 3 1
  ⟨h5.1 (by decide), h5.2.2.2.1 (by decide), h5.2.2.2.2.2.1 (Or.inr (by decide)),
    h5.2.2.2.2.2.2.1, h1.2.2.2.2.2.2.2 (by decide)⟩

/-- C5: every borrowed-only wrapper type was claimed to get an
unconditionally panicking Drop impl.  The macro does generate it for the
well-formed invocations (BlockRef, RegionRef, OperationRef, ValueRef,
AttributeRef) and DialectRef has a handwritten panicking Drop, but the
invocations for TypeRef, IdentifierRef, LocationRef and ContextRef lack the
required selector token, match no arm of the macro, and therefore produce no
Drop impl at all (a compile error in the crate). -/
theorem c5_ref_drop_coverage :
    generatesPanickingDrop blockRefInvocation = true ∧
    generatesPanickingDrop regionRefInvocation = true ∧
    generatesPanickingDrop operationRefInvocation = true ∧
    generatesPanickingDrop valueRefInvocation = true ∧
    generatesPanickingDrop attributeRefInvocation = true ∧
    isPanic (macro_generated_drop "BlockRef") = true ∧
    isPanic DialectRef.drop = true ∧
    impl_unowned_mlir_value_arm typeRefInvocation = none ∧
    impl_unowned_mlir_value_arm identifierRefInvocation = none ∧
    impl_unowned_mlir_value_arm locationRefInvocation = none ∧
    impl_unowned_mlir_value_arm contextRefInvocation = none := by
  decide

/-- C6: against an interning context, a successfully parsed text yields the
interned handle of its denoted value, so two independent parses of the same
text give handles the foreign equality reports equal, and texts denoting
distinct values give handles it reports unequal. -/
theorem c6_interning_equality (c : InternedContext) (s s1 s2 : List Nat) (v1 v2 : Nat)
    (h1 : c.denote s1 = some v1) (h2 : c.denote s2 = some v2) (hne : v1 ≠ v2) :
    c.typeParse s = c.typeParse s ∧
    c.typeParse s1 = some (c.handleOf v1) ∧
    c.typeParse s2 = some (c.handleOf v2) ∧
    mlirTypeEqual (c.handleOf v1) (c.handleOf v1) = true ∧
    mlirTypeEqual (c.handleOf v1) (c.handleOf v2) = false := by
  refine ⟨rfl, ?_, ?_, ?_, ?_⟩
  · simp [InternedContext.typeParse, h1]
  · simp [InternedContext.typeParse, h2]
  · simp [mlirTypeEqual]
  · simp only [mlirTypeEqual, beq_eq_false_iff_ne, ne_eq]
    intro h
    exact hne (c.handle_injective v1 v2 h)

/-- C6 witness: the interning statement at the sample context, with the
texts i32 and f32 (as UTF-8 bytes) denoting the distinct values 0 and 1. -/
theorem c6_interning_equality_witness :
    sampleContext.typeParse [105, 51, 50] = some (sampleContext.handleOf 0) ∧
    mlirTypeEqual (sampleContext.handleOf 0) (sampleContext.handleOf 1) = false :=
  have h := c6_interning_equality sampleContext [105, 51, 50] [105, 51, 50]
    [102, 51, 50] 0 1 (by decide) (by decide) (by decide)
  ⟨h.2.1, h.2.2.2.2⟩

/-- C7 counterexample: the bridge callback does not catch the panic raised
by a sink write failure - on the chunk holding byte 97 with a sink whose
write fails, `raw_callback` ends in the panic from
`StringReader::push`, which escapes the callback body instead of being
caught. -/
theorem c7_counterexample :
    StringReader.raw_callback (fun _ => false) ⟨[97]⟩ =
      Except.error "Could not write MLIR string to destination" := by
  rfl

/-- C7 amended: `raw_callback` is exactly `push` with no panic-catching
wrapper, and it panics precisely when the chunk fails UTF-8 decoding in
`as_str` or the sink write fails; such a panic propagates out of the
callback body (any protection of foreign frames is left to the compiler's
extern-C unwind handling, not to this code). -/
theorem c7_raw_callback_propagates_panic (sink_write : List Nat → Bool)
    (raw_string : MlirStringRef) :
    StringReader.raw_callback sink_write raw_string =
      StringReader.push sink_write raw_string ∧
    (isPanic (StringReader.raw_callback sink_write raw_string) = true ↔
      isPanic (StringRef.as_str raw_string) = true ∨
      (∃ s, StringRef.as_str raw_string = Except.ok s ∧ sink_write s = false)) := by
  refine ⟨rfl, ?_⟩
  unfold StringReader.raw_callback StringReader.push
  cases h : StringRef.as_str raw_string with
  | error e => simp [isPanic, h]
  | ok s =>
    cases hs : sink_write s with
    | true => simp [isPanic, h, hs]
    | false => simp [isPanic, h, hs]

/-- C8: the first-use query is the head of the use list, absent exactly when
the value has no uses; adding a use by operation `b` pushes it onto the
front, so immediately after constructing `b` the first use is owned by
`b`. -/
theorem c8_use_list_head (uses : UseList) (b idx : Nat) :
    (ValueRef.get_first_use uses = none ↔ uses = []) ∧
    ValueRef.get_first_use (addUse b idx uses) = some ⟨b, idx⟩ ∧
    (ValueRef.get_first_use (addUse b idx uses)).map OpOperandRef.get_owner = some b := by
  refine ⟨?_, rfl, rfl⟩
  cases uses <;> simp [ValueRef.get_first_use, mlirValueGetFirstUse]

/-- C9: `LogicalResult` polarity - success is the raw value 1 (nonzero),
`success(b).succeeded() = b`, `failure(b)` coincides with `success(!b)` and
fails exactly when `b`, and for every result `failed` is the negation of
`succeeded`. -/
theorem c9_logical_result_polarity :
    (LogicalResult.success true).to_raw.value = 1 ∧
    (∀ b : Bool, (LogicalResult.success b).succeeded = b) ∧
    (∀ b : Bool, LogicalResult.failure b = LogicalResult.success (!b)) ∧
    (∀ b : Bool, (LogicalResult.failure b).failed = b) ∧
    (∀ r : LogicalResult, r.failed = !r.succeeded) := by
  refine ⟨rfl, ?_, ?_, ?_, ?_⟩
  · intro b
    cases b <;> rfl
  · intro b
    rfl
  · intro b
    cases b <;> rfl
  · intro r
    rfl

/-- C10 counterexample: on the non-empty byte sequence 255, 0 - which ends
in a NUL byte - `as_str` panics on invalid UTF-8 instead of returning the
sequence with the trailing NUL removed, refuting the unconditional claim. -/
theorem c10_counterexample :
    StringRef.as_str ⟨[255, 0]⟩ = Except.error "MLIR StringRef was not valid UTF-8" ∧
    StringRef.as_str ⟨[255, 0]⟩ ≠ Except.ok [255] := by
  constructor
  · rfl
  · intro h
    exact Except.noConfusion ((by rfl :
      StringRef.as_str ⟨[255, 0]⟩ =
        Except.error "MLIR StringRef was not valid UTF-8").symm.trans h)

/-- C10 amended: a `StringRef` over the bytes of a string whose final byte
is not NUL round-trips through `as_str`; a non-empty byte sequence ending in
a NUL byte comes back with exactly that one trailing NUL removed provided
the remaining bytes are valid UTF-8 (otherwise `as_str` panics); and the
zero-length view yields the empty string. -/
theorem c10_string_ref_round_trip (s bytes : List Nat)
    (hs : utf8Valid s = true) (hlast : s.getLast? ≠ some 0)
    (hne : bytes ≠ []) (hnul : bytes.getLast? = some 0)
    (hvalid : utf8Valid bytes.dropLast = true) :
    StringRef.as_str (StringRef.from_string s) = Except.ok s ∧
    StringRef.as_str ⟨bytes⟩ = Except.ok bytes.dropLast ∧
    StringRef.as_str ⟨[]⟩ = Except.ok [] := by
  refine ⟨?_, ?_, rfl⟩
  · rcases eq_or_ne s [] with hempty | hnonempty
    · subst hempty
      rfl
    · have hlen : (s.length == 0) = false := by
        simp [List.length_eq_zero, hnonempty]
      have hlast' : (s.getLast? == some 0) = false := by
        simpa [beq_eq_false_iff_ne] using hlast
      simp [StringRef.as_str, StringRef.from_string, hlen, hlast', hs]
  · have hlen : (bytes.length == 0) = false := by
      simp [List.length_eq_zero, hne]
    have hnul' : (bytes.getLast? == some 0) = true := by
      simp [hnul]
    simp [StringRef.as_str, hlen, hnul', hvalid]

/-- C10 witness: the amended statement at the bytes 104, 105 (no trailing
NUL) and 104, 0 (trailing NUL). -/
theorem c10_string_ref_round_trip_witness :
    StringRef.as_str (StringRef.from_string [104, 105]) = Except.ok [104, 105] ∧
    StringRef.as_str ⟨[104, 0]⟩ = Except.ok [104] :=
  have h := c10_string_ref_round_trip [104, 105] [104, 0] (by decide) (by decide)
    (by decide) (by decide) (by decide)
  ⟨h.1, by simpa using h.2.1⟩

end MlirRs
